import Mathlib

/-!
Shallow embedding of `src/python/diffusers_server/server.py` (the Diffusers
server of ericcurtin/model-runner).

Python strings are modelled as `List Char` (ASCII-faithful: Python's
`str.lower` / `int` accept some non-ASCII input that this model does not
attempt to capture; every string this server manipulates is ASCII).
Python exceptions are modelled as the inductive `PyExc`; fallible calls
return `Except PyExc _`.  External library capabilities (the diffusers
constructors, `pipe.to(device)`, the PNG encoder, the pipeline call
itself) are parameters of the embedding, as they are opaque to this
repository's code.
-/

namespace DiffusersServer

/-- Python whitespace stripped by `int(...)` (`str.strip` default set,
ASCII part). -/
def isPyWs (c : Char) : Bool :=
  c = ' ' || c = '\t' || c = '\n' || c = '\r' || c = '\x0b' || c = '\x0c'

/-- One character of `str.lower()` (ASCII: basic latin letters only,
matching `Char.toLower`). -/
def pyLowerChar (c : Char) : Char := c.toLower

/-- `s.lower()` on the `List Char` model of a Python string. -/
def pyLower (s : List Char) : List Char := s.map pyLowerChar

/-- `s.split(sep)` for a one-character separator: Python's `str.split`
with an explicit separator always returns at least one chunk, and
`"".split('x') == [""]`. -/
def pySplitChar (sep : Char) : List Char → List (List Char)
  | [] => [[]]
  | c :: rest =>
    if c = sep then [] :: pySplitChar sep rest
    else
      match pySplitChar sep rest with
      | [] => [[c]]
      | chunk :: chunks => (c :: chunk) :: chunks

/-- Decimal value of a digit character. -/
def digitValChar (c : Char) : Nat := c.toNat - 48

/-- Value of a list of decimal digit characters (most significant first). -/
def digitVal (l : List Char) : Nat :=
  l.foldl (fun acc c => acc * 10 + digitValChar c) 0

/-- Digit-run parser underlying Python's base-10 `int(...)`: after the
first digit, single underscores are allowed between digits
(`int("1_0") == 10`), never leading, trailing or doubled. -/
def pyDigitsAux (acc : Nat) : List Char → Option Nat
  | [] => some acc
  | c :: rest =>
    if c.isDigit then pyDigitsAux (acc * 10 + digitValChar c) rest
    else if c = '_' then
      match rest with
      | [] => none
      | c2 :: rest2 =>
        if c2.isDigit then pyDigitsAux (acc * 10 + digitValChar c2) rest2
        else none
    else none

/-- A nonempty digit run (first character must be a digit). -/
def pyDigits : List Char → Option Nat
  | [] => none
  | c :: rest => if c.isDigit then pyDigitsAux (digitValChar c) rest else none

/-- Strip leading and trailing Python whitespace. -/
def pyStrip (s : List Char) : List Char :=
  ((s.dropWhile isPyWs).reverse.dropWhile isPyWs).reverse

/-- Python's `int(s)` for base 10 on the ASCII fragment: optional
surrounding whitespace, optional single `+`/`-` sign, then a digit run
with optional single internal underscores.  Returns `none` where Python
raises `ValueError`. -/
def pyInt (s : List Char) : Option Int :=
  match pyStrip s with
  | [] => none
  | c :: rest =>
    if c = '-' then (pyDigits rest).map (fun n => -(n : Int))
    else if c = '+' then (pyDigits rest).map (fun n => (n : Int))
    else (pyDigits (c :: rest)).map (fun n => (n : Int))

/-- The `ValueError` raised by `parse_size` (lines 68 and 73): it embeds
the offending size string in its message. -/
inductive SizeError where
  | invalid (offending : List Char)
deriving DecidableEq

/-- `parse_size` (server.py lines 63-73): lower-case the string, split on
`'x'`, require exactly two chunks, parse both with `int`. Any
`ValueError` (from the length check or from `int`) is re-raised as the
"Invalid size format" error carrying the original string. -/
def parse_size (size : List Char) : Except SizeError (Int × Int) :=
  match pySplitChar 'x' (pyLower size) with
  | [p1, p2] =>
    match pyInt p1, pyInt p2 with
    | some width, some height => Except.ok (width, height)
    | _, _ => Except.error (SizeError.invalid size)
  | _ => Except.error (SizeError.invalid size)

/-- Statement-side encoding of a decimal integer string: an optional
sign character (`some true` for `'+'`, `some false` for `'-'`) followed
by a digit run.  Used to quantify over the size strings the claims
speak about. -/
def signedDigits (sgn : Option Bool) (ds : List Char) : List Char :=
  match sgn with
  | none => ds
  | some true => '+' :: ds
  | some false => '-' :: ds

/-- The integer denoted by a `signedDigits` string. -/
def signedVal (sgn : Option Bool) (ds : List Char) : Int :=
  match sgn with
  | some false => -(digitVal ds : Int)
  | _ => (digitVal ds : Int)

/-- The slice of filesystem state that `load_model` consults:
`os.path.isfile` and `os.path.isdir`. -/
structure FS where
  isFile : List Char → Bool
  isDir : List Char → Bool

/-- `is_dduf_file` (lines 76-78): the lower-cased path ends with `.dduf`
AND the (original) path is an existing regular file. -/
def is_dduf_file (fs : FS) (path : List Char) : Bool :=
  ".dduf".data.isSuffixOf (pyLower path) && fs.isFile path

/-- The spec's `ModelSource` classification, reifying the branch
structure of `load_model` (lines 137-146): the DDUF branch is taken iff
`is_dduf_file`; the directory check at line 144 only logs, so
`localDirectory` and `remoteIdentifier` load identically. -/
inductive ModelSource where
  | packagedArchive
  | localDirectory
  | remoteIdentifier
deriving DecidableEq

/-- Which branch of `load_model` a path falls into. -/
def classify_source (fs : FS) (path : List Char) : ModelSource :=
  if is_dduf_file fs path then ModelSource.packagedArchive
  else if fs.isDir path then ModelSource.localDirectory
  else ModelSource.remoteIdentifier

/-- `os.path.basename` (posix): everything after the last `'/'`. -/
def basename (p : List Char) : List Char :=
  (p.reverse.takeWhile (fun c => c ≠ '/')).reverse

/-- `os.path.dirname` (posix): everything up to and including the last
`'/'`; trailing slashes are then stripped unless the head consists of
slashes only (`posixpath.split`). -/
def dirname (p : List Char) : List Char :=
  let head := (p.reverse.dropWhile (fun c => c ≠ '/')).reverse
  if head.all (fun c => c = '/') then head
  else (head.reverse.dropWhile (fun c => c = '/')).reverse

/-- A Python exception value: a message plus the implicit-chaining
fields.  `withCause m e` models an exception whose `__cause__` is `e`
(set by `raise ... from e`; never done by this repository's own code,
but possible for exceptions coming out of external calls);
`withContext m e` models an exception raised inside an `except` block
(`__context__ = e`, `__cause__ = None`), as at line 110. -/
inductive PyExc where
  | base (msg : List Char)
  | withCause (msg : List Char) (cause : PyExc)
  | withContext (msg : List Char) (context : PyExc)
deriving DecidableEq

/-- `str(e)`: the exception's own message. -/
def PyExc.msg : PyExc → List Char
  | .base m => m
  | .withCause m _ => m
  | .withContext m _ => m

/-- `e.__cause__` as an `Option`. -/
def PyExc.cause : PyExc → Option PyExc
  | .withCause _ c => some c
  | _ => none

/-- `e.__context__` as an `Option`. -/
def PyExc.context : PyExc → Option PyExc
  | .withContext _ c => some c
  | _ => none

/-- Whether `e.__cause__ is not None`. -/
def PyExc.hasCause : PyExc → Bool
  | .withCause _ _ => true
  | _ => false

/-- The `while root_cause.__cause__ is not None` loop of `main`
(lines 360-362): follow `__cause__` links to the innermost exception. -/
def PyExc.rootCause : PyExc → PyExc
  | .base m => .base m
  | .withCause _ c => c.rootCause
  | .withContext m c => .withContext m c

/-- Compute device (lines 124-135). -/
inductive Device where
  | cuda
  | mps
  | cpu
deriving DecidableEq

/-- Numeric precision (torch dtype) selected alongside the device. -/
inductive DType where
  | float16
  | float32
deriving DecidableEq

/-- Device/precision selection (lines 124-135): CUDA, else MPS, both
with float16; else CPU with float32. -/
def selectDevice (cudaAvailable mpsAvailable : Bool) : Device × DType :=
  if cudaAvailable then (Device.cuda, DType.float16)
  else if mpsAvailable then (Device.mps, DType.float16)
  else (Device.cpu, DType.float32)

/-- The external diffusers/torch capabilities `load_model` invokes,
modelled as fallible functions (any of these Python calls may raise).
The constant keyword arguments of the source (`safety_checker=None`,
`requires_safety_checker=False`) are baked into the respective field. -/
structure Strategies (Engine : Type) where
  /-- `AutoPipelineForText2Image.from_pretrained(path, torch_dtype=..)`
  with safety checker disabled (lines 149-154). -/
  autoPipeline : List Char → DType → Except PyExc Engine
  /-- `StableDiffusionPipeline.from_pretrained(path, torch_dtype=..)`
  with safety checker disabled (lines 158-163). -/
  sdPipeline : List Char → DType → Except PyExc Engine
  /-- `DiffusionPipeline.from_pretrained(path, torch_dtype=..)`
  (lines 166-169). -/
  genericPipeline : List Char → DType → Except PyExc Engine
  /-- `DiffusionPipeline.from_pretrained(dir, dduf_file=name,
  torch_dtype=..)` (lines 98-102). -/
  genericDduf : List Char → List Char → DType → Except PyExc Engine
  /-- `pipe.to(device)` (lines 104, 171): an external call that may
  itself raise (e.g. out of accelerator memory). -/
  toDevice : Engine → Device → Except PyExc Engine
  /-- `enable_attention_slicing()` behind the `hasattr` guard
  (lines 174-175), best-effort in-place tweak of the engine. -/
  enableSlicing : Engine → Engine

/-- Trace of external construction calls, for stating which strategies
were attempted, in which order, with which arguments. -/
inductive LoadEvent where
  | triedAuto (path : List Char)
  | triedSD (path : List Char)
  | triedGeneric (path : List Char)
  | triedDduf (dir file : List Char)
deriving DecidableEq

/-- The module-level globals (lines 29-32). -/
structure ServerState (Engine : Type) where
  pipeline : Option Engine
  current_model : Option (List Char)
  served_model_name : Option (List Char)
deriving DecidableEq

/-- `load_model_from_dduf` (lines 81-110): split the path with
`os.path.dirname`/`os.path.basename`, call the generic constructor with
`dduf_file=`, move to the device; any exception in the `try` block is
re-raised as `RuntimeError(f"Failed to load DDUF file: {e}")`, which
chains the original exception as `__context__`. -/
def load_model_from_dduf {Engine : Type} (ext : Strategies Engine)
    (dduf_path : List Char) (device : Device) (dtype : DType) :
    Except PyExc Engine :=
  let dduf_dir := dirname dduf_path
  let dduf_filename := basename dduf_path
  match ext.genericDduf dduf_dir dduf_filename dtype with
  | Except.error e =>
    Except.error (PyExc.withContext ("Failed to load DDUF file: ".data ++ e.msg) e)
  | Except.ok pipe =>
    match ext.toDevice pipe device with
    | Except.error e =>
      Except.error (PyExc.withContext ("Failed to load DDUF file: ".data ++ e.msg) e)
    | Except.ok pipe2 => Except.ok pipe2

/-- The `try/except/except` constructor chain of `load_model`
(lines 147-169), with the trace of attempted constructors.  Each
constructor is invoked only after the previous one raised; the third
one's exception propagates unwrapped. -/
def tryStrategies {Engine : Type} (ext : Strategies Engine) (dtype : DType)
    (model_path : List Char) : Except PyExc Engine × List LoadEvent :=
  match ext.autoPipeline model_path dtype with
  | Except.ok p => (Except.ok p, [LoadEvent.triedAuto model_path])
  | Except.error _ =>
    match ext.sdPipeline model_path dtype with
    | Except.ok p =>
      (Except.ok p, [LoadEvent.triedAuto model_path, LoadEvent.triedSD model_path])
    | Except.error _ =>
      (ext.genericPipeline model_path dtype,
        [LoadEvent.triedAuto model_path, LoadEvent.triedSD model_path,
          LoadEvent.triedGeneric model_path])

/-- Body of `load_model` past the cache check (lines 121-179), as a
transformer of the global state, also returning the trace of
construction calls.  Global-assignment points are preserved: on the
non-DDUF path the successful constructor's result is stored in
`pipeline` (lines 149/158/166) *before* `pipeline.to(device)` runs
(line 171), so a failure of the device move leaves that engine resident
while `current_model` (assigned only at line 177) is unchanged.  On the
DDUF path the whole load happens before the assignment at line 139, and
in the chain each failing constructor raises before its assignment, so
those failures leave the globals untouched. -/
def load_model_fresh {Engine : Type} (ext : Strategies Engine) (fs : FS)
    (cudaAvailable mpsAvailable : Bool) (st : ServerState Engine)
    (model_path : List Char) :
    Except PyExc Engine × ServerState Engine × List LoadEvent :=
  let dd := selectDevice cudaAvailable mpsAvailable
  if is_dduf_file fs model_path then
    match load_model_from_dduf ext model_path dd.1 dd.2 with
    | Except.ok pipe =>
      (Except.ok pipe,
        { st with pipeline := some pipe, current_model := some model_path },
        [LoadEvent.triedDduf (dirname model_path) (basename model_path)])
    | Except.error e =>
      (Except.error e, st,
        [LoadEvent.triedDduf (dirname model_path) (basename model_path)])
  else
    match tryStrategies ext dd.2 model_path with
    | (Except.error e, events) => (Except.error e, st, events)
    | (Except.ok pipe, events) =>
      let st1 := { st with pipeline := some pipe }
      match ext.toDevice pipe dd.1 with
      | Except.error e => (Except.error e, st1, events)
      | Except.ok pipe2 =>
        let pipe3 := ext.enableSlicing pipe2
        (Except.ok pipe3,
          { st1 with pipeline := some pipe3, current_model := some model_path },
          events)

/-- `load_model` (lines 113-179): the cache check of lines 117-119
(`pipeline is not None and current_model == model_path`) returns the
resident engine without touching anything; otherwise fall through to
the loading body. -/
def load_model {Engine : Type} (ext : Strategies Engine) (fs : FS)
    (cudaAvailable mpsAvailable : Bool) (st : ServerState Engine)
    (model_path : List Char) :
    Except PyExc Engine × ServerState Engine × List LoadEvent :=
  match st.pipeline with
  | some p =>
    if st.current_model = some model_path then (Except.ok p, st, [])
    else load_model_fresh ext fs cudaAvailable mpsAvailable st model_path
  | none => load_model_fresh ext fs cudaAvailable mpsAvailable st model_path

/-- `torch.Generator(device=..).manual_seed(seed)`: a deterministic
random source, identified by its device and seed. -/
structure Generator where
  device : Device
  seed : Int
deriving DecidableEq

/-- Generator construction as `generate_images` performs it
(lines 201-206 and 216-221): probe CUDA, then MPS, else CPU. -/
def mkGenerator (cudaAvailable mpsAvailable : Bool) (seed : Int) : Generator :=
  if cudaAvailable then { device := Device.cuda, seed := seed }
  else if mpsAvailable then { device := Device.mps, seed := seed }
  else { device := Device.cpu, seed := seed }

/-- The keyword arguments of the `pipeline(...)` call (lines 223-231).
`guidance_scale` is a Python float passed through opaquely; it is
modelled as an exact rational. -/
structure CallArgs where
  prompt : List Char
  negative_prompt : Option (List Char)
  width : Int
  height : Int
  num_inference_steps : Int
  guidance_scale : Rat
  generator : Option Generator
deriving DecidableEq

/-- One iteration of the `for i in range(n)` loop of `generate_images`
(lines 213-238): build `current_generator` (seeded `seed + i` when both
the outer generator and the seed are set, exactly the line-215
condition), invoke the pipeline, take `result.images[0]` (folded into
`pipe`), encode to PNG bytes. -/
def genStep {Img Bytes : Type} (pipe : CallArgs → Except PyExc Img)
    (savePng : Img → Except PyExc Bytes)
    (cudaAvailable mpsAvailable : Bool) (prompt : List Char)
    (width height : Int) (negative_prompt : Option (List Char))
    (num_inference_steps : Int) (guidance_scale : Rat)
    (generator : Option Generator) (seed : Option Int) (i : Nat) :
    Except PyExc Bytes :=
  let current_generator : Option Generator :=
    match generator, seed with
    | some _, some s => some (mkGenerator cudaAvailable mpsAvailable (s + i))
    | _, _ => none
  match pipe { prompt := prompt, negative_prompt := negative_prompt,
               width := width, height := height,
               num_inference_steps := num_inference_steps,
               guidance_scale := guidance_scale,
               generator := current_generator } with
  | Except.error e => Except.error e
  | Except.ok img => savePng img

/-- The `for i in range(n)` loop of `generate_images` (lines 211-238),
iterating the remaining count with the current index `i` and appending
each image's bytes in index order.  Any exception aborts the whole
call, discarding the locally accumulated list, so no partial result
escapes. -/
def genLoop {Img Bytes : Type} (pipe : CallArgs → Except PyExc Img)
    (savePng : Img → Except PyExc Bytes)
    (cudaAvailable mpsAvailable : Bool) (prompt : List Char)
    (width height : Int) (negative_prompt : Option (List Char))
    (num_inference_steps : Int) (guidance_scale : Rat)
    (generator : Option Generator) (seed : Option Int) :
    Nat → Nat → Except PyExc (List Bytes)
  | _, 0 => Except.ok []
  | i, n + 1 =>
    match genStep pipe savePng cudaAvailable mpsAvailable prompt width height
        negative_prompt num_inference_steps guidance_scale generator seed i with
    | Except.error e => Except.error e
    | Except.ok bytes =>
      match genLoop pipe savePng cudaAvailable mpsAvailable prompt width
          height negative_prompt num_inference_steps guidance_scale
          generator seed (i + 1) n with
      | Except.error e => Except.error e
      | Except.ok rest => Except.ok (bytes :: rest)

/-- `generate_images` (lines 182-241).  The loaded global `pipeline` is
modelled as an optional function from call arguments to a raw image
(`result.images[0]`); `savePng` models the `image.save(buffer, "PNG")`
/ `buffer.getvalue()` encoding.  With no pipeline, raise
`RuntimeError("No model loaded")` before any work.  The outer
`generator` (lines 199-206, seeded with the plain seed) is built but
each image then uses its own generator seeded `seed + i`. -/
def generate_images {Img Bytes : Type}
    (pipelineOpt : Option (CallArgs → Except PyExc Img))
    (savePng : Img → Except PyExc Bytes)
    (cudaAvailable mpsAvailable : Bool) (prompt : List Char) (n : Nat)
    (width height : Int) (negative_prompt : Option (List Char))
    (num_inference_steps : Int) (guidance_scale : Rat)
    (seed : Option Int) : Except PyExc (List Bytes) :=
  match pipelineOpt with
  | none => Except.error (PyExc.base "No model loaded".data)
  | some pipe =>
    let generator : Option Generator :=
      seed.map (mkGenerator cudaAvailable mpsAvailable)
    genLoop pipe savePng cudaAvailable mpsAvailable prompt width height
      negative_prompt num_inference_steps guidance_scale generator seed 0 n

/-- Python truthiness of an optional string (`if served_model_name`):
`None` and the empty string are falsy. -/
def pyTruthyStr : Option (List Char) → Bool
  | none => false
  | some s => !s.isEmpty

/-- The model-mismatch condition of `create_image` (line 278):
`served_model_name and requested_model != served_model_name and
requested_model != current_model` (comparing a string with `None`
yields inequality). -/
def model_mismatch (served current : Option (List Char))
    (requested : List Char) : Bool :=
  pyTruthyStr served
    && !(some requested == served)
    && !(some requested == current)

/-- The gate `create_image` runs before generation (lines 276-285):
model-mismatch first (HTTP 421), then engine presence (HTTP 503);
`none` means the request proceeds to size parsing and generation. -/
def create_image_precheck (served current : Option (List Char))
    (pipelineLoaded : Bool) (requested : List Char) : Option Nat :=
  if model_mismatch served current requested then some 421
  else if !pipelineLoaded then some 503
  else none

/-- The `except` block of `main` (lines 356-370): walk `__cause__` links
to the innermost exception, print one line
`DIFFUSERS_ERROR: {error_msg}` to stderr, and `sys.exit(1)`.  Result:
(the diagnostic line, the exit status). -/
def main_on_error (e : PyExc) : List Char × Nat :=
  let root_cause := e.rootCause
  let error_msg := root_cause.msg
  ("DIFFUSERS_ERROR: ".data ++ error_msg, 1)

deriving instance DecidableEq for Except

/-!  Theorems.  Helper lemmas first, then one theorem per claim (with
witness or counterexample where required). -/

theorem pyLowerChar_digit {c : Char} (h : c.isDigit = true) : pyLowerChar c = c := by
  simp only [Char.isDigit, Bool.and_eq_true, decide_eq_true_eq] at h
  have h57 : c.toNat ≤ 57 := UInt32.toNat_le_of_le (by decide) h.2
  unfold pyLowerChar Char.toLower
  rw [if_neg]
  omega

theorem ne_of_isDigit {c d : Char} (h : c.isDigit = true)
    (hd : d.isDigit = false) : c ≠ d := by
  intro hc
  subst hc
  rw [h] at hd
  cases hd

theorem not_isPyWs_of_isDigit {c : Char} (h : c.isDigit = true) :
    isPyWs c = false := by
  cases hw : isPyWs c
  · rfl
  · exfalso
    unfold isPyWs at hw
    simp only [Bool.or_eq_true, decide_eq_true_eq] at hw
    rcases hw with ((((hw | hw) | hw) | hw) | hw) | hw <;>
      (subst hw; exact absurd h (by decide))

theorem pyLower_all_digits {l : List Char} (h : ∀ c ∈ l, c.isDigit = true) :
    pyLower l = l := by
  induction l with
  | nil => rfl
  | cons c cs ih =>
    have hc := h c (List.mem_cons_self c cs)
    simp only [pyLower, List.map_cons, pyLowerChar_digit hc]
    have := ih (fun d hd => h d (List.mem_cons_of_mem c hd))
    simpa [pyLower] using this

theorem pySplitChar_no_sep {sep : Char} {l : List Char}
    (h : ∀ c ∈ l, c ≠ sep) : pySplitChar sep l = [l] := by
  induction l with
  | nil => rfl
  | cons c cs ih =>
    have hc := h c (List.mem_cons_self c cs)
    have hrec := ih (fun d hd => h d (List.mem_cons_of_mem c hd))
    simp [pySplitChar, hc, hrec]

theorem pySplitChar_append_sep {sep : Char} {l r : List Char}
    (h : ∀ c ∈ l, c ≠ sep) :
    pySplitChar sep (l ++ sep :: r) = l :: pySplitChar sep r := by
  induction l with
  | nil => simp [pySplitChar]
  | cons c cs ih =>
    have hc := h c (List.mem_cons_self c cs)
    have hrec := ih (fun d hd => h d (List.mem_cons_of_mem c hd))
    simp [pySplitChar, hc, hrec]

theorem pyDigitsAux_all_digits {l : List Char} (h : ∀ c ∈ l, c.isDigit = true)
    (acc : Nat) :
    pyDigitsAux acc l = some (l.foldl (fun a c => a * 10 + digitValChar c) acc) := by
  induction l generalizing acc with
  | nil => rfl
  | cons c cs ih =>
    have hc := h c (List.mem_cons_self c cs)
    have hstep : pyDigitsAux acc (c :: cs)
        = pyDigitsAux (acc * 10 + digitValChar c) cs := by
      rw [pyDigitsAux.eq_def]
      dsimp only
      rw [if_pos hc]
    rw [hstep, ih (fun d hd => h d (List.mem_cons_of_mem c hd))]
    rfl

theorem pyDigits_all_digits {l : List Char} (hne : l ≠ [])
    (h : ∀ c ∈ l, c.isDigit = true) : pyDigits l = some (digitVal l) := by
  cases l with
  | nil => exact absurd rfl hne
  | cons c cs =>
    have hc := h c (List.mem_cons_self c cs)
    simp [pyDigits, hc,
      pyDigitsAux_all_digits (fun d hd => h d (List.mem_cons_of_mem c hd)),
      digitVal, List.foldl]

theorem dropWhile_eq_self_of_none {p : Char → Bool} {l : List Char}
    (h : ∀ c ∈ l, p c = false) : l.dropWhile p = l := by
  cases l with
  | nil => rfl
  | cons c cs => simp [List.dropWhile, h c (List.mem_cons_self c cs)]

theorem pyStrip_all_digits {l : List Char} (h : ∀ c ∈ l, c.isDigit = true) :
    pyStrip l = l := by
  unfold pyStrip
  rw [dropWhile_eq_self_of_none (fun c hc => not_isPyWs_of_isDigit (h c hc))]
  rw [dropWhile_eq_self_of_none
    (fun c hc => not_isPyWs_of_isDigit (h c (List.mem_reverse.mp hc)))]
  exact List.reverse_reverse l

theorem pyInt_all_digits {l : List Char} (hne : l ≠ [])
    (h : ∀ c ∈ l, c.isDigit = true) : pyInt l = some ((digitVal l : Int)) := by
  cases l with
  | nil => exact absurd rfl hne
  | cons c cs =>
    have hc := h c (List.mem_cons_self c cs)
    unfold pyInt
    rw [pyStrip_all_digits h]
    dsimp only
    rw [if_neg (ne_of_isDigit hc (by decide)),
      if_neg (ne_of_isDigit hc (by decide)),
      pyDigits_all_digits hne h]
    rfl

theorem pyStrip_no_ws {l : List Char} (h : ∀ c ∈ l, isPyWs c = false) :
    pyStrip l = l := by
  unfold pyStrip
  rw [dropWhile_eq_self_of_none h]
  rw [dropWhile_eq_self_of_none (fun c hc => h c (List.mem_reverse.mp hc))]
  exact List.reverse_reverse l

theorem pyInt_neg_digits {ds : List Char} (hne : ds ≠ [])
    (hd : ∀ c ∈ ds, c.isDigit = true) :
    pyInt ('-' :: ds) = some (-(digitVal ds : Int)) := by
  unfold pyInt
  rw [pyStrip_no_ws (by
    intro c hc
    rcases List.mem_cons.mp hc with h | h
    · subst h; decide
    · exact not_isPyWs_of_isDigit (hd c h))]
  dsimp only
  rw [if_pos rfl, pyDigits_all_digits hne hd]
  rfl

theorem pyInt_plus_digits {ds : List Char} (hne : ds ≠ [])
    (hd : ∀ c ∈ ds, c.isDigit = true) :
    pyInt ('+' :: ds) = some ((digitVal ds : Int)) := by
  unfold pyInt
  rw [pyStrip_no_ws (by
    intro c hc
    rcases List.mem_cons.mp hc with h | h
    · subst h; decide
    · exact not_isPyWs_of_isDigit (hd c h))]
  dsimp only
  rw [if_neg (by decide), if_pos rfl, pyDigits_all_digits hne hd]
  rfl

theorem pyInt_signedDigits (sgn : Option Bool) {ds : List Char} (hne : ds ≠ [])
    (hd : ∀ c ∈ ds, c.isDigit = true) :
    pyInt (signedDigits sgn ds) = some (signedVal sgn ds) := by
  cases sgn with
  | none => exact pyInt_all_digits hne hd
  | some b =>
    cases b with
    | true => exact pyInt_plus_digits hne hd
    | false => exact pyInt_neg_digits hne hd

theorem signedDigits_no_x (sgn : Option Bool) {ds : List Char}
    (hd : ∀ c ∈ ds, c.isDigit = true) :
    ∀ c ∈ signedDigits sgn ds, c ≠ 'x' := by
  intro c hc
  cases sgn with
  | none => exact ne_of_isDigit (hd c hc) (by decide)
  | some b =>
    cases b with
    | true =>
      rcases List.mem_cons.mp hc with h | h
      · subst h; decide
      · exact ne_of_isDigit (hd c h) (by decide)
    | false =>
      rcases List.mem_cons.mp hc with h | h
      · subst h; decide
      · exact ne_of_isDigit (hd c h) (by decide)

theorem pyLower_signedDigits (sgn : Option Bool) {ds : List Char}
    (hd : ∀ c ∈ ds, c.isDigit = true) :
    pyLower (signedDigits sgn ds) = signedDigits sgn ds := by
  cases sgn with
  | none => exact pyLower_all_digits hd
  | some b =>
    cases b with
    | true =>
      show pyLower ('+' :: ds) = '+' :: ds
      unfold pyLower
      rw [List.map_cons]
      have e := pyLower_all_digits hd
      unfold pyLower at e
      rw [e]
      rfl
    | false =>
      show pyLower ('-' :: ds) = '-' :: ds
      unfold pyLower
      rw [List.map_cons]
      have e := pyLower_all_digits hd
      unfold pyLower at e
      rw [e]
      rfl

theorem pySplitChar_ne_nil (sep : Char) (l : List Char) :
    pySplitChar sep l ≠ [] := by
  cases l with
  | nil => simp [pySplitChar]
  | cons c rest =>
    unfold pySplitChar
    by_cases hc : c = sep
    · rw [if_pos hc]
      simp
    · rw [if_neg hc]
      cases pySplitChar sep rest with
      | nil => simp
      | cons a as => simp

theorem parse_size_split_ne_two {s : List Char}
    (h : (pySplitChar 'x' (pyLower s)).length ≠ 2) :
    parse_size s = Except.error (SizeError.invalid s) := by
  unfold parse_size
  split
  · next p1 p2 heq => exact absurd (by rw [heq]; rfl) h
  · rfl

theorem parse_size_part_fail {s p1 p2 : List Char}
    (hsp : pySplitChar 'x' (pyLower s) = [p1, p2])
    (h : pyInt p1 = none ∨ pyInt p2 = none) :
    parse_size s = Except.error (SizeError.invalid s) := by
  unfold parse_size
  rw [hsp]
  dsimp only
  cases hp1 : pyInt p1 with
  | none =>
    cases hp2 : pyInt p2 with
    | none => rfl
    | some v => rfl
  | some w =>
    cases hp2 : pyInt p2 with
    | none => rfl
    | some v =>
      exfalso
      rcases h with h | h
      · rw [hp1] at h
        exact Option.noConfusion h
      · rw [hp2] at h
        exact Option.noConfusion h

/-- C4 (amended): for every size string of the form `"WxH"` whose two
parts are decimal integers (nonempty digit runs with an optional sign —
so zero and negative values are accepted, not rejected) joined by a
case-insensitive separator (`'x'` or `'X'`), `parse_size` returns
exactly the denoted pair; every other string fails with the
`InvalidSizeError` carrying the offending string — in particular the
empty string, any string with no (case-insensitive) separator, any
string with extra parts (two or more separators), and any string whose
two parts are not both `int`-parseable.  (The original claim's
requirement that non-positive numbers be rejected is false on the code
— see the counterexample — since `int(...)` happily parses `"0"` and
`"-3"` and `parse_size` never checks positivity.) -/
theorem c4_parse_size_spec :
    (∀ (sgn1 sgn2 : Option Bool) (ds1 ds2 : List Char) (sep : Char),
      (sep = 'x' ∨ sep = 'X') → ds1 ≠ [] → ds2 ≠ [] →
      (∀ c ∈ ds1, c.isDigit = true) → (∀ c ∈ ds2, c.isDigit = true) →
      parse_size (signedDigits sgn1 ds1 ++ sep :: signedDigits sgn2 ds2)
        = Except.ok (signedVal sgn1 ds1, signedVal sgn2 ds2))
    ∧ parse_size [] = Except.error (SizeError.invalid [])
    ∧ (∀ s : List Char, (∀ c ∈ s, pyLowerChar c ≠ 'x') →
        parse_size s = Except.error (SizeError.invalid s))
    ∧ (∀ (l1 l2 l3 : List Char) (s1 s2 : Char),
        pyLowerChar s1 = 'x' → pyLowerChar s2 = 'x' →
        (∀ c ∈ l1, pyLowerChar c ≠ 'x') → (∀ c ∈ l2, pyLowerChar c ≠ 'x') →
        parse_size (l1 ++ s1 :: l2 ++ s2 :: l3)
          = Except.error (SizeError.invalid (l1 ++ s1 :: l2 ++ s2 :: l3)))
    ∧ (∀ (s p1 p2 : List Char), pySplitChar 'x' (pyLower s) = [p1, p2] →
        pyInt p1 = none ∨ pyInt p2 = none →
        parse_size s = Except.error (SizeError.invalid s))
    ∧ (∀ (s : List Char) (e : SizeError),
        parse_size s = Except.error e → e = SizeError.invalid s) := by
  refine ⟨?_, ?_, ?_, ?_, ?_, ?_⟩
  · intro sgn1 sgn2 ds1 ds2 sep hsep h1 h2 hd1 hd2
    have hsx : pyLowerChar sep = 'x' := by
      rcases hsep with h | h <;> (subst h; decide)
    have hlow : pyLower (signedDigits sgn1 ds1 ++ sep :: signedDigits sgn2 ds2)
        = signedDigits sgn1 ds1 ++ 'x' :: signedDigits sgn2 ds2 := by
      unfold pyLower
      rw [List.map_append, List.map_cons]
      have e1 := pyLower_signedDigits sgn1 hd1
      have e2 := pyLower_signedDigits sgn2 hd2
      unfold pyLower at e1 e2
      rw [e1, e2, hsx]
    unfold parse_size
    rw [hlow]
    rw [pySplitChar_append_sep (signedDigits_no_x sgn1 hd1)]
    rw [pySplitChar_no_sep (signedDigits_no_x sgn2 hd2)]
    dsimp only
    rw [pyInt_signedDigits sgn1 h1 hd1, pyInt_signedDigits sgn2 h2 hd2]
  · rfl
  · intro s hs
    apply parse_size_split_ne_two
    have hm : ∀ c ∈ pyLower s, c ≠ 'x' := by
      intro c hc
      obtain ⟨c0, hc0, rfl⟩ := List.mem_map.mp hc
      exact hs c0 hc0
    rw [pySplitChar_no_sep hm]
    simp
  · intro l1 l2 l3 s1 s2 hs1 hs2 h1 h2
    apply parse_size_split_ne_two
    have hm1 : ∀ c ∈ pyLower l1, c ≠ 'x' := by
      intro c hc
      obtain ⟨c0, hc0, rfl⟩ := List.mem_map.mp hc
      exact h1 c0 hc0
    have hm2 : ∀ c ∈ pyLower l2, c ≠ 'x' := by
      intro c hc
      obtain ⟨c0, hc0, rfl⟩ := List.mem_map.mp hc
      exact h2 c0 hc0
    have hlow : pyLower (l1 ++ s1 :: l2 ++ s2 :: l3)
        = pyLower l1 ++ 'x' :: (pyLower l2 ++ 'x' :: pyLower l3) := by
      simp [pyLower, hs1, hs2]
    rw [hlow, pySplitChar_append_sep hm1, pySplitChar_append_sep hm2]
    have hpos : 0 < (pySplitChar 'x' (pyLower l3)).length :=
      List.length_pos.mpr (pySplitChar_ne_nil 'x' (pyLower l3))
    simp only [List.length_cons]
    omega
  · intro s p1 p2 hsp h
    exact parse_size_part_fail hsp h
  · intro s e h
    unfold parse_size at h
    split at h
    · split at h <;> first
        | exact Except.noConfusion h
        | (injection h with h2; exact h2.symm)
    · injection h with h2; exact h2.symm

/-- Witness for C4: `"-3X480"` parses to `(-3, 480)` (negative value,
upper-case separator); `"12"` (no separator), `"1x2x3"` (extra parts)
and `"axb"` (non-numeric parts) each fail with the error carrying the
offending string. -/
theorem c4_witness :
    parse_size (signedDigits (some false) "3".data ++ 'X' :: signedDigits none "480".data)
      = Except.ok (signedVal (some false) "3".data, signedVal none "480".data)
    ∧ parse_size "12".data = Except.error (SizeError.invalid "12".data)
    ∧ parse_size "1x2x3".data = Except.error (SizeError.invalid "1x2x3".data)
    ∧ parse_size "axb".data = Except.error (SizeError.invalid "axb".data) := by
  refine ⟨?_, ?_, ?_, ?_⟩
  · exact c4_parse_size_spec.1 (some false) none "3".data "480".data 'X'
      (Or.inr rfl) (by decide) (by decide) (by decide) (by decide)
  · exact c4_parse_size_spec.2.2.1 "12".data (by decide)
  · exact c4_parse_size_spec.2.2.2.1 "1".data "2".data "3".data 'x' 'x'
      (by decide) (by decide) (by decide) (by decide)
  · exact c4_parse_size_spec.2.2.2.2.1 "axb".data "a".data "b".data (by decide)
      (Or.inl (by decide))

/-- Counterexample to C4 as stated: the claim requires `parse_size` to
fail with `InvalidSizeError` on non-positive dimensions, but the code
returns `(0, 0)` for `"0x0"` and `(-3, 2)` for `"-3x2"`. -/
theorem c4_counterexample :
    parse_size "0x0".data = Except.ok (0, 0)
    ∧ parse_size "-3x2".data = Except.ok (-3, 2) := by
  exact ⟨by decide, by decide⟩

theorem suffix_map_iff (d path : List Char) :
    d <:+ pyLower path ↔ ∃ s, s <:+ path ∧ pyLower s = d := by
  constructor
  · intro h
    obtain ⟨t, ht⟩ := h
    have : pyLower path = t ++ d := ht.symm
    unfold pyLower at this
    rw [List.map_eq_append_iff] at this
    obtain ⟨l1, l2, hsplit, _, hmap2⟩ := this
    exact ⟨l2, ⟨l1, hsplit.symm⟩, hmap2⟩
  · rintro ⟨s, hs, rfl⟩
    exact List.IsSuffix.map pyLowerChar hs

/-- C5: source classification is a pure function of path string and
filesystem state.  A path classifies as `packagedArchive` iff some
suffix of it lower-cases to `".dduf"` (case-insensitive extension
match) AND the path is an existing regular file; a path that is
neither an existing file nor an existing directory falls through to
`remoteIdentifier` (in particular a non-existent `.dduf` path). -/
theorem c5_classification : ∀ (fs : FS) (path : List Char),
    (classify_source fs path = ModelSource.packagedArchive ↔
      (∃ s, s <:+ path ∧ pyLower s = ".dduf".data) ∧ fs.isFile path = true)
    ∧ (fs.isFile path = false → fs.isDir path = false →
        classify_source fs path = ModelSource.remoteIdentifier) := by
  intro fs path
  have hiff : is_dduf_file fs path = true ↔
      (∃ s, s <:+ path ∧ pyLower s = ".dduf".data) ∧ fs.isFile path = true := by
    unfold is_dduf_file
    rw [Bool.and_eq_true, List.isSuffixOf_iff_suffix, suffix_map_iff]
  constructor
  · constructor
    · intro h
      unfold classify_source at h
      by_cases hd : is_dduf_file fs path = true
      · exact hiff.mp hd
      · exfalso
        rw [if_neg hd] at h
        by_cases hdir : fs.isDir path = true
        · rw [if_pos hdir] at h; exact ModelSource.noConfusion h
        · rw [if_neg hdir] at h; exact ModelSource.noConfusion h
    · intro h
      unfold classify_source
      rw [if_pos (hiff.mpr h)]
  · intro hf hdir
    unfold classify_source
    have hnd : ¬ is_dduf_file fs path = true := by
      unfold is_dduf_file
      rw [hf]
      simp
    rw [if_neg hnd, if_neg (by rw [hdir]; exact Bool.false_ne_true)]

/-- Witness for C5: an existing `m.DDUF` file classifies as a packaged
archive (case-insensitively); the same name on an empty filesystem
falls through to the remote-identifier path. -/
theorem c5_witness :
    classify_source ⟨fun p => p == "m.DDUF".data, fun _ => false⟩ "m.DDUF".data
      = ModelSource.packagedArchive
    ∧ classify_source ⟨fun _ => false, fun _ => false⟩ "m.dduf".data
      = ModelSource.remoteIdentifier := by
  constructor
  · exact (c5_classification ⟨fun p => p == "m.DDUF".data, fun _ => false⟩
      "m.DDUF".data).1.mpr ⟨⟨".DDUF".data, by decide, by decide⟩, by decide⟩
  · exact (c5_classification ⟨fun _ => false, fun _ => false⟩
      "m.dduf".data).2 rfl rfl

/-- C6: with a served model name declared (a non-empty string), a
request whose model is neither the served name nor the currently loaded
model path is rejected with HTTP 421 (the distinct `ModelMismatchError`
"wrong server" status — not 400, 500 or 503), regardless of engine
readiness; a request whose model equals either passes the mismatch
check (`create_image_precheck` imposes nothing further when the engine
is ready). -/
theorem c6_model_mismatch_gate :
    ∀ (s : List Char) (current : Option (List Char)) (requested : List Char)
      (loaded : Bool), s ≠ [] →
    ((requested ≠ s → some requested ≠ current →
      create_image_precheck (some s) current loaded requested = some 421
        ∧ 421 ≠ 400 ∧ 421 ≠ 500 ∧ 421 ≠ 503)
    ∧ ((requested = s ∨ current = some requested) →
      create_image_precheck (some s) current true requested = none)) := by
  intro s current requested loaded hs
  have he : s.isEmpty = false := by
    cases s
    · exact absurd rfl hs
    · rfl
  constructor
  · intro h1 h2
    refine ⟨?_, by decide, by decide, by decide⟩
    unfold create_image_precheck model_mismatch pyTruthyStr
    have hb1 : (some requested == some s) = false := by
      simp [beq_iff_eq]
      exact h1
    have hb2 : (some requested == current) = false := by
      cases current with
      | none => rfl
      | some c =>
        simp [beq_iff_eq]
        intro hc
        exact h2 (by rw [hc])
    simp [he, hb1, hb2]
  · intro h
    unfold create_image_precheck model_mismatch pyTruthyStr
    rcases h with h | h
    · subst h
      simp
    · rw [h]
      simp

/-- Witness for C6: with served name `"served"` and loaded path
`"path"`, the request `"other"` is rejected with 421, while `"served"`
and `"path"` both pass the gate. -/
theorem c6_witness :
    create_image_precheck (some "served".data) (some "path".data) true
      "other".data = some 421
    ∧ create_image_precheck (some "served".data) (some "path".data) true
      "served".data = none
    ∧ create_image_precheck (some "served".data) (some "path".data) true
      "path".data = none := by
  refine ⟨?_, ?_, ?_⟩
  · exact ((c6_model_mismatch_gate "served".data (some "path".data)
      "other".data true (by decide)).1 (by decide) (by decide)).1
  · exact (c6_model_mismatch_gate "served".data (some "path".data)
      "served".data true (by decide)).2 (Or.inl rfl)
  · exact (c6_model_mismatch_gate "served".data (some "path".data)
      "path".data true (by decide)).2 (Or.inr rfl)

theorem rootCause_hasCause (e : PyExc) : e.rootCause.hasCause = false := by
  induction e with
  | base m => rfl
  | withCause m c ih => simpa [PyExc.rootCause] using ih
  | withContext m c ih => rfl

/-- C9: on any unrecoverable startup error, the process exits with a
non-zero status and emits the single diagnostic line consisting of the
fixed prefix `DIFFUSERS_ERROR: ` followed by the message of the root
cause, obtained by unwrapping the `__cause__` chain to its innermost
exception (which has no further cause); the line is single-line
whenever that message is. -/
theorem c9_startup_error_contract : ∀ e : PyExc,
    (main_on_error e).2 ≠ 0
    ∧ (main_on_error e).1 = "DIFFUSERS_ERROR: ".data ++ (PyExc.rootCause e).msg
    ∧ (PyExc.rootCause e).hasCause = false
    ∧ ('\n' ∉ (PyExc.rootCause e).msg → '\n' ∉ (main_on_error e).1) := by
  intro e
  refine ⟨Nat.one_ne_zero, rfl, rootCause_hasCause e, ?_⟩
  intro h
  unfold main_on_error
  dsimp only
  rw [List.mem_append]
  rintro (hp | hm)
  · exact absurd hp (by decide)
  · exact h hm

/-- Witness for C9: a wrapped exception (`__cause__` chain of depth
one) produces exit status 1 and the single line
`DIFFUSERS_ERROR: inner`. -/
theorem c9_witness :
    (main_on_error (PyExc.withCause "outer".data (PyExc.base "inner".data))).2 ≠ 0
    ∧ (main_on_error (PyExc.withCause "outer".data (PyExc.base "inner".data))).1
      = "DIFFUSERS_ERROR: inner".data
    ∧ '\n' ∉ (main_on_error (PyExc.withCause "outer".data
        (PyExc.base "inner".data))).1 := by
  have h := c9_startup_error_contract
    (PyExc.withCause "outer".data (PyExc.base "inner".data))
  exact ⟨h.1, by rw [h.2.1]; decide, h.2.2.2 (by decide)⟩

/-- The body of one seeded image generation: a pipeline call whose
generator is deterministically seeded `S + j` for image index `j`,
followed by PNG encoding.  `genStep` with an outer generator and seed
`S` is definitionally this. -/
def seededCall {Img Bytes : Type} (pipe : CallArgs → Except PyExc Img)
    (savePng : Img → Except PyExc Bytes) (cuda mps : Bool) (prompt : List Char)
    (width height : Int) (np : Option (List Char)) (steps : Int) (g : Rat)
    (S : Int) (j : Nat) : Except PyExc Bytes :=
  match pipe { prompt := prompt, negative_prompt := np, width := width,
               height := height, num_inference_steps := steps,
               guidance_scale := g,
               generator := some (mkGenerator cuda mps (S + (j : Int))) } with
  | Except.error e => Except.error e
  | Except.ok img => savePng img

theorem genStep_seeded {Img Bytes : Type}
    (pipe : CallArgs → Except PyExc Img) (savePng : Img → Except PyExc Bytes)
    (cuda mps : Bool) (prompt : List Char) (width height : Int)
    (np : Option (List Char)) (steps : Int) (g : Rat) (gen0 : Generator)
    (S : Int) (j : Nat) :
    genStep pipe savePng cuda mps prompt width height np steps g
        (some gen0) (some S) j
      = seededCall pipe savePng cuda mps prompt width height np steps g S j := rfl

theorem genLoop_seeded {Img Bytes : Type}
    (pipe : CallArgs → Except PyExc Img) (savePng : Img → Except PyExc Bytes)
    (cuda mps : Bool) (prompt : List Char) (width height : Int)
    (np : Option (List Char)) (steps : Int) (g : Rat) (gen0 : Generator)
    (S : Int) :
    ∀ (k i : Nat),
    genLoop pipe savePng cuda mps prompt width height np steps g
        (some gen0) (some S) i k
      = (List.range' i k).mapM
          (seededCall pipe savePng cuda mps prompt width height np steps g S) := by
  intro k
  induction k with
  | zero =>
    intro i
    rw [show List.range' i 0 = [] from rfl]
    rfl
  | succ k ih =>
    intro i
    rw [List.range'_succ, List.mapM_cons]
    simp only [genLoop]
    rw [genStep_seeded, ih (i + 1)]
    cases hgs : seededCall pipe savePng cuda mps prompt width height np steps g S i with
    | error e => simp [Bind.bind, Except.bind]
    | ok bytes =>
      cases hm : (List.range' (i + 1) k).mapM
          (seededCall pipe savePng cuda mps prompt width height np steps g S) with
      | error e => simp [Bind.bind, Except.bind, Pure.pure, Except.pure]
      | ok rest => simp [Bind.bind, Except.bind, Pure.pure, Except.pure]

/-- C1: `generate_images` with a supplied seed `S` and count `n ≥ 1`
equals, image for image and in index order, the sequence of single
pipeline calls whose generators are seeded exactly
`S, S+1, ..., S+n-1` (`seededCall ... S j` uses seed `S + j`, and
`List.range n` enumerates `j = 0, ..., n-1` in order).  Since the
embedding is a pure function of these inputs, repeating the call with
the same `S` (and a deterministic engine `pipe`) yields identical
results at every index. -/
theorem c1_seed_progression {Img Bytes : Type}
    (pipe : CallArgs → Except PyExc Img) (savePng : Img → Except PyExc Bytes)
    (cuda mps : Bool) (prompt : List Char) (width height : Int)
    (np : Option (List Char)) (steps : Int) (g : Rat) (S : Int) (n : Nat)
    (h : 1 ≤ n) :
    generate_images (some pipe) savePng cuda mps prompt n width height np
        steps g (some S)
      = (List.range n).mapM
          (seededCall pipe savePng cuda mps prompt width height np steps g S) := by
  unfold generate_images
  dsimp only [Option.map]
  rw [List.range_eq_range']
  exact genLoop_seeded pipe savePng cuda mps prompt width height np steps g
    (mkGenerator cuda mps S) S n 0

/-- Witness for C1: with an engine that reports its generator, a batch
of 2 with seed 5 uses generators seeded 5 and 6, in index order. -/
theorem c1_witness :
    1 ≤ 2
    ∧ generate_images (some (fun a => Except.ok a.generator)) Except.ok
        false false "p".data 2 512 512 none 50 0 (some 5)
      = Except.ok [some (mkGenerator false false 5), some (mkGenerator false false 6)] := by
  refine ⟨by decide, ?_⟩
  rw [c1_seed_progression (fun a => Except.ok a.generator) Except.ok false false
    "p".data 512 512 none 50 0 5 2 (by decide)]
  decide

theorem genLoop_length {Img Bytes : Type}
    (pipe : CallArgs → Except PyExc Img) (savePng : Img → Except PyExc Bytes)
    (cuda mps : Bool) (prompt : List Char) (width height : Int)
    (np : Option (List Char)) (steps : Int) (g : Rat)
    (generator : Option Generator) (seed : Option Int) :
    ∀ (k i : Nat) (l : List Bytes),
    genLoop pipe savePng cuda mps prompt width height np steps g
        generator seed i k = Except.ok l → l.length = k := by
  intro k
  induction k with
  | zero =>
    intro i l h
    simp only [genLoop] at h
    injection h with h
    rw [← h]
    rfl
  | succ k ih =>
    intro i l h
    simp only [genLoop] at h
    cases hgs : genStep pipe savePng cuda mps prompt width height np steps g
        generator seed i with
    | error e => rw [hgs] at h; exact Except.noConfusion h
    | ok bytes =>
      rw [hgs] at h
      cases hrec : genLoop pipe savePng cuda mps prompt width height np steps g
          generator seed (i + 1) k with
      | error e => rw [hrec] at h; exact Except.noConfusion h
      | ok rest =>
        rw [hrec] at h
        injection h with h
        rw [← h]
        simp [ih (i + 1) rest hrec]

/-- C7: `generate_images` against an unset engine fails immediately
with the `EngineNotReadyError` (`RuntimeError("No model loaded")`),
having invoked nothing; and whenever it returns successfully the result
has exactly the requested length `n` (a failure anywhere in the loop
aborts the whole call — the `Except` result carries either all `n`
buffers in index order or only the error, never a partial list). -/
theorem c7_none_or_full {Img Bytes : Type}
    (savePng : Img → Except PyExc Bytes) (cuda mps : Bool)
    (prompt : List Char) (n : Nat) (width height : Int)
    (np : Option (List Char)) (steps : Int) (g : Rat) (seed : Option Int) :
    (generate_images (none : Option (CallArgs → Except PyExc Img)) savePng
        cuda mps prompt n width height np steps g seed
      = Except.error (PyExc.base "No model loaded".data))
    ∧ (∀ (pipe : CallArgs → Except PyExc Img) (l : List Bytes),
        generate_images (some pipe) savePng cuda mps prompt n width height np
          steps g seed = Except.ok l → l.length = n) := by
  constructor
  · rfl
  · intro pipe l h
    unfold generate_images at h
    exact genLoop_length pipe savePng cuda mps prompt width height np steps g
      (seed.map (mkGenerator cuda mps)) seed n 0 l h

/-- Witness for C7: the not-ready error on a concrete call, and a
concrete successful batch of 3 has length 3. -/
theorem c7_witness :
    (generate_images (none : Option (CallArgs → Except PyExc Nat)) Except.ok
        false false "p".data 3 512 512 none 50 0 none
      = Except.error (PyExc.base "No model loaded".data))
    ∧ ([0, 0, 0] : List Nat).length = 3 := by
  constructor
  · exact (c7_none_or_full Except.ok false false "p".data 3 512 512 none 50 0 none).1
  · exact (c7_none_or_full Except.ok false false "p".data 3 512 512 none 50 0
      none).2 (fun _ => Except.ok 0) [0, 0, 0] (by rfl)

theorem load_model_fresh_dduf {Engine : Type} (ext : Strategies Engine) (fs : FS)
    (cuda mps : Bool) (st : ServerState Engine) (path : List Char)
    (hd : is_dduf_file fs path = true) :
    load_model_fresh ext fs cuda mps st path
      = match load_model_from_dduf ext path (selectDevice cuda mps).1
            (selectDevice cuda mps).2 with
        | Except.ok pipe =>
          (Except.ok pipe,
            { st with pipeline := some pipe, current_model := some path },
            [LoadEvent.triedDduf (dirname path) (basename path)])
        | Except.error e =>
          (Except.error e, st,
            [LoadEvent.triedDduf (dirname path) (basename path)]) := by
  unfold load_model_fresh
  dsimp only
  rw [if_pos hd]

theorem load_model_fresh_chain {Engine : Type} (ext : Strategies Engine) (fs : FS)
    (cuda mps : Bool) (st : ServerState Engine) (path : List Char)
    (hd : is_dduf_file fs path = false) :
    load_model_fresh ext fs cuda mps st path
      = match tryStrategies ext (selectDevice cuda mps).2 path with
        | (Except.error e, events) => (Except.error e, st, events)
        | (Except.ok pipe, events) =>
          match ext.toDevice pipe (selectDevice cuda mps).1 with
          | Except.error e => (Except.error e, { st with pipeline := some pipe }, events)
          | Except.ok pipe2 =>
            (Except.ok (ext.enableSlicing pipe2),
              { st with
                  pipeline := some (ext.enableSlicing pipe2),
                  current_model := some path },
              events) := by
  unfold load_model_fresh
  dsimp only
  rw [if_neg (by rw [hd]; exact Bool.false_ne_true)]

/-- C2 (amended): on the non-DDUF path, the three constructors are
tried in strict order — auto-detect, then Stable-Diffusion-specific,
then generic — each attempted only after the previous one raised, with
the first success short-circuiting, and the construction chain fails
iff all three raise; the trace of attempted constructors surfaces
unchanged through `load_model_fresh`.  (The original claim's final
clause "load fails only if all three raise" is false on the code: a
successful construction followed by a failing `pipeline.to(device)` at
line 171 also makes load fail — see the counterexample.) -/
theorem c2_strategy_chain {Engine : Type} (ext : Strategies Engine)
    (dtype : DType) (path : List Char) :
    (∀ p, ext.autoPipeline path dtype = Except.ok p →
      tryStrategies ext dtype path = (Except.ok p, [LoadEvent.triedAuto path]))
    ∧ (∀ e p, ext.autoPipeline path dtype = Except.error e →
        ext.sdPipeline path dtype = Except.ok p →
        tryStrategies ext dtype path
          = (Except.ok p, [LoadEvent.triedAuto path, LoadEvent.triedSD path]))
    ∧ (∀ e e2, ext.autoPipeline path dtype = Except.error e →
        ext.sdPipeline path dtype = Except.error e2 →
        tryStrategies ext dtype path
          = (ext.genericPipeline path dtype,
              [LoadEvent.triedAuto path, LoadEvent.triedSD path,
                LoadEvent.triedGeneric path]))
    ∧ ((tryStrategies ext dtype path).1.isOk = false ↔
        (ext.autoPipeline path dtype).isOk = false
        ∧ (ext.sdPipeline path dtype).isOk = false
        ∧ (ext.genericPipeline path dtype).isOk = false)
    ∧ (∀ (fs : FS) (st : ServerState Engine) (cuda mps : Bool),
        is_dduf_file fs path = false → dtype = (selectDevice cuda mps).2 →
        (load_model_fresh ext fs cuda mps st path).2.2
          = (tryStrategies ext dtype path).2) := by
  refine ⟨?_, ?_, ?_, ?_, ?_⟩
  · intro p hp
    unfold tryStrategies
    rw [hp]
  · intro e p he hp
    unfold tryStrategies
    rw [he, hp]
  · intro e e2 he he2
    unfold tryStrategies
    rw [he, he2]
  · unfold tryStrategies
    cases ha : ext.autoPipeline path dtype with
    | ok p => simp [Except.isOk, Except.toBool]
    | error e =>
      cases hs : ext.sdPipeline path dtype with
      | ok p => simp [Except.isOk, Except.toBool]
      | error e2 =>
        cases hg : ext.genericPipeline path dtype with
        | ok p => simp [Except.isOk, Except.toBool]
        | error e3 => simp [Except.isOk, Except.toBool]
  · intro fs st cuda mps hdd hdt
    subst hdt
    rw [load_model_fresh_chain ext fs cuda mps st path hdd]
    cases hts : tryStrategies ext (selectDevice cuda mps).2 path with
    | mk r events =>
      cases r with
      | error e => rfl
      | ok pipe =>
        dsimp only
        cases ht : ext.toDevice pipe (selectDevice cuda mps).1 with
        | error e => rfl
        | ok pipe2 => rfl

/-- Counterexample to C2's final clause as stated: with all three
constructors succeeding but `pipeline.to(device)` raising, load fails
although only the first constructor was ever attempted (so "load fails
only if all three raise" is false). -/
theorem c2_counterexample :
    ((load_model
        (⟨fun _ _ => Except.ok 5, fun _ _ => Except.ok 6,
          fun _ _ => Except.ok 7, fun _ _ _ => Except.ok 9,
          fun _ _ => Except.error (PyExc.base "cuda oom".data), id⟩ :
            Strategies Nat)
        ⟨fun _ => false, fun _ => false⟩ false false
        ⟨none, none, none⟩ "m".data).1.isOk = false)
    ∧ (load_model
        (⟨fun _ _ => Except.ok 5, fun _ _ => Except.ok 6,
          fun _ _ => Except.ok 7, fun _ _ _ => Except.ok 9,
          fun _ _ => Except.error (PyExc.base "cuda oom".data), id⟩ :
            Strategies Nat)
        ⟨fun _ => false, fun _ => false⟩ false false
        ⟨none, none, none⟩ "m".data).2.2 = [LoadEvent.triedAuto "m".data] := by
  exact ⟨by decide, by decide⟩

/-- Witness for C2: with the first two constructors raising and the
third succeeding, all three are attempted in order and the third's
engine is returned. -/
theorem c2_witness :
    tryStrategies
      (⟨fun _ _ => Except.error (PyExc.base "a".data),
        fun _ _ => Except.error (PyExc.base "b".data),
        fun _ _ => Except.ok 7, fun _ _ _ => Except.ok 9,
        fun e _ => Except.ok e, id⟩ : Strategies Nat)
      DType.float32 "m".data
      = (Except.ok 7,
          [LoadEvent.triedAuto "m".data, LoadEvent.triedSD "m".data,
            LoadEvent.triedGeneric "m".data]) := by
  exact (c2_strategy_chain
    (⟨fun _ _ => Except.error (PyExc.base "a".data),
      fun _ _ => Except.error (PyExc.base "b".data),
      fun _ _ => Except.ok 7, fun _ _ _ => Except.ok 9,
      fun e _ => Except.ok e, id⟩ : Strategies Nat)
    DType.float32 "m".data).2.2.1 (PyExc.base "a".data) (PyExc.base "b".data)
    rfl rfl

theorem tryStrategies_events_ne_nil {Engine : Type} (ext : Strategies Engine)
    (dtype : DType) (path : List Char) :
    (tryStrategies ext dtype path).2 ≠ [] := by
  unfold tryStrategies
  cases ext.autoPipeline path dtype with
  | ok p => simp
  | error e =>
    cases ext.sdPipeline path dtype with
    | ok p => simp
    | error e2 => simp

theorem load_fresh_dduf_fail_state_eq {Engine : Type} (ext : Strategies Engine)
    (fs : FS) (cuda mps : Bool) (st : ServerState Engine) (path : List Char)
    (hd : is_dduf_file fs path = true)
    (hfail : (load_model_fresh ext fs cuda mps st path).1.isOk = false) :
    (load_model_fresh ext fs cuda mps st path).2.1 = st := by
  rw [load_model_fresh_dduf ext fs cuda mps st path hd] at hfail ⊢
  cases hld : load_model_from_dduf ext path (selectDevice cuda mps).1
      (selectDevice cuda mps).2 with
  | ok pipe =>
    rw [hld] at hfail
    simp [Except.isOk, Except.toBool] at hfail
  | error e => rfl

theorem load_fresh_chain_fail_state_eq {Engine : Type} (ext : Strategies Engine)
    (fs : FS) (cuda mps : Bool) (st : ServerState Engine) (path : List Char)
    (hd : is_dduf_file fs path = false)
    (hts_fail : (tryStrategies ext (selectDevice cuda mps).2 path).1.isOk = false) :
    (load_model_fresh ext fs cuda mps st path).2.1 = st := by
  rw [load_model_fresh_chain ext fs cuda mps st path hd]
  rcases hts : tryStrategies ext (selectDevice cuda mps).2 path with ⟨r, events⟩
  rw [hts] at hts_fail
  cases r with
  | error e => rfl
  | ok pipe => simp [Except.isOk, Except.toBool] at hts_fail

/-- C8: if an engine is resident for exactly the requested path, `load`
returns it, invokes no construction strategy (empty trace), and leaves
the state untouched; for any other requested path it falls through to
the full loading body, which always attempts construction (non-empty
trace) and, on success, stores the new engine in the single engine
slot with the new path (the prior engine is replaced — the state holds
at most one engine by construction). -/
theorem c8_load_cache {Engine : Type} (ext : Strategies Engine) (fs : FS)
    (cuda mps : Bool) (st : ServerState Engine) (path : List Char) :
    (∀ p, st.pipeline = some p → st.current_model = some path →
      load_model ext fs cuda mps st path = (Except.ok p, st, []))
    ∧ (st.current_model ≠ some path →
        load_model ext fs cuda mps st path
          = load_model_fresh ext fs cuda mps st path
        ∧ (load_model_fresh ext fs cuda mps st path).2.2 ≠ [])
    ∧ (∀ p st' evs,
        load_model_fresh ext fs cuda mps st path = (Except.ok p, st', evs) →
        st'.pipeline = some p ∧ st'.current_model = some path) := by
  refine ⟨?_, ?_, ?_⟩
  · intro p hp hc
    unfold load_model
    rw [hp]
    dsimp only
    rw [if_pos hc]
  · intro hc
    constructor
    · unfold load_model
      cases hp : st.pipeline with
      | none => rfl
      | some p =>
        dsimp only
        rw [if_neg hc]
    · by_cases hd : is_dduf_file fs path = true
      · rw [load_model_fresh_dduf ext fs cuda mps st path hd]
        cases hld : load_model_from_dduf ext path (selectDevice cuda mps).1
            (selectDevice cuda mps).2 with
        | ok pipe => simp
        | error e => simp
      · have hd' : is_dduf_file fs path = false := by
          cases hb : is_dduf_file fs path
          · rfl
          · exact absurd hb hd
        rw [load_model_fresh_chain ext fs cuda mps st path hd']
        have hne := tryStrategies_events_ne_nil ext (selectDevice cuda mps).2 path
        rcases hts : tryStrategies ext (selectDevice cuda mps).2 path with ⟨r, events⟩
        rw [hts] at hne
        cases r with
        | error e => exact hne
        | ok pipe =>
          dsimp only
          cases ext.toDevice pipe (selectDevice cuda mps).1 with
          | error e => exact hne
          | ok pipe2 => exact hne
  · intro p st' evs h
    by_cases hd : is_dduf_file fs path = true
    · rw [load_model_fresh_dduf ext fs cuda mps st path hd] at h
      cases hld : load_model_from_dduf ext path (selectDevice cuda mps).1
          (selectDevice cuda mps).2 with
      | ok pipe =>
        rw [hld] at h
        simp only [Prod.mk.injEq] at h
        obtain ⟨h1, h2, h3⟩ := h
        injection h1 with h1
        rw [← h2, ← h1]
        exact ⟨rfl, rfl⟩
      | error e =>
        rw [hld] at h
        simp only [Prod.mk.injEq] at h
        exact absurd h.1 (by simp)
    · have hd' : is_dduf_file fs path = false := by
        cases hb : is_dduf_file fs path
        · rfl
        · exact absurd hb hd
      rw [load_model_fresh_chain ext fs cuda mps st path hd'] at h
      rcases hts : tryStrategies ext (selectDevice cuda mps).2 path with ⟨r, events⟩
      rw [hts] at h
      cases r with
      | error e =>
        simp only [Prod.mk.injEq] at h
        exact absurd h.1 (by simp)
      | ok pipe =>
        dsimp only at h
        cases ht : ext.toDevice pipe (selectDevice cuda mps).1 with
        | error e =>
          rw [ht] at h
          simp only [Prod.mk.injEq] at h
          exact absurd h.1 (by simp)
        | ok pipe2 =>
          rw [ht] at h
          simp only [Prod.mk.injEq] at h
          obtain ⟨h1, h2, h3⟩ := h
          injection h1 with h1
          rw [← h2, ← h1]
          exact ⟨rfl, rfl⟩

/-- Witness for C8: a resident engine for the same path is returned
untouched with an empty trace; a different recorded path falls through
to the loading body; and the final state of a concrete successful
fresh load holds the new engine and path. -/
theorem c8_witness :
    load_model
      (⟨fun _ _ => Except.ok 5, fun _ _ => Except.ok 6, fun _ _ => Except.ok 7,
        fun _ _ _ => Except.ok 9, fun e _ => Except.ok e, id⟩ : Strategies Nat)
      ⟨fun _ => false, fun _ => false⟩ false false
      ⟨some 42, some "m".data, none⟩ "m".data
      = (Except.ok 42, ⟨some 42, some "m".data, none⟩, [])
    ∧ (load_model
        (⟨fun _ _ => Except.ok 5, fun _ _ => Except.ok 6, fun _ _ => Except.ok 7,
          fun _ _ _ => Except.ok 9, fun e _ => Except.ok e, id⟩ : Strategies Nat)
        ⟨fun _ => false, fun _ => false⟩ false false
        ⟨some 42, some "other".data, none⟩ "m".data
        = load_model_fresh
            (⟨fun _ _ => Except.ok 5, fun _ _ => Except.ok 6, fun _ _ => Except.ok 7,
              fun _ _ _ => Except.ok 9, fun e _ => Except.ok e, id⟩ : Strategies Nat)
            ⟨fun _ => false, fun _ => false⟩ false false
            ⟨some 42, some "other".data, none⟩ "m".data)
    ∧ ((⟨some 5, some "m".data, none⟩ : ServerState Nat).pipeline = some 5
        ∧ (⟨some 5, some "m".data, none⟩ : ServerState Nat).current_model
          = some "m".data) := by
  refine ⟨?_, ?_, ?_⟩
  · exact (c8_load_cache _ _ false false _ _).1 42 rfl rfl
  · exact ((c8_load_cache _ _ false false _ _).2.1 (by decide)).1
  · exact (c8_load_cache
      (⟨fun _ _ => Except.ok 5, fun _ _ => Except.ok 6, fun _ _ => Except.ok 7,
        fun _ _ _ => Except.ok 9, fun e _ => Except.ok e, id⟩ : Strategies Nat)
      ⟨fun _ => false, fun _ => false⟩ false false
      ⟨some 42, some "other".data, none⟩ "m".data).2.2 5
      ⟨some 5, some "m".data, none⟩ [LoadEvent.triedAuto "m".data] (by decide)

/-- C3: on the DDUF branch the loader performs exactly one construction
call, with the path split into containing directory and file name as
its arguments, and never falls back to the three-strategy chain (the
trace is exactly `[triedDduf dir file]` whether it succeeds or fails);
any failure — of the constructor or of the device move inside the same
`try` — surfaces as the `RuntimeError("Failed to load DDUF file: ...")`
whose `__context__` preserves the original exception. -/
theorem c3_dduf_no_fallback {Engine : Type} (ext : Strategies Engine) (fs : FS)
    (cuda mps : Bool) (st : ServerState Engine) (path : List Char)
    (hd : is_dduf_file fs path = true) :
    (load_model_fresh ext fs cuda mps st path).2.2
      = [LoadEvent.triedDduf (dirname path) (basename path)]
    ∧ (∀ e, ext.genericDduf (dirname path) (basename path)
          (selectDevice cuda mps).2 = Except.error e →
        (load_model_fresh ext fs cuda mps st path).1
          = Except.error (PyExc.withContext
              ("Failed to load DDUF file: ".data ++ e.msg) e)
        ∧ (PyExc.withContext ("Failed to load DDUF file: ".data ++ e.msg) e).context
          = some e)
    ∧ (∀ pipe e, ext.genericDduf (dirname path) (basename path)
          (selectDevice cuda mps).2 = Except.ok pipe →
        ext.toDevice pipe (selectDevice cuda mps).1 = Except.error e →
        (load_model_fresh ext fs cuda mps st path).1
          = Except.error (PyExc.withContext
              ("Failed to load DDUF file: ".data ++ e.msg) e)
        ∧ (PyExc.withContext ("Failed to load DDUF file: ".data ++ e.msg) e).context
          = some e) := by
  refine ⟨?_, ?_, ?_⟩
  · rw [load_model_fresh_dduf ext fs cuda mps st path hd]
    cases hld : load_model_from_dduf ext path (selectDevice cuda mps).1
        (selectDevice cuda mps).2 with
    | ok pipe => rfl
    | error e => rfl
  · intro e he
    have hld : load_model_from_dduf ext path (selectDevice cuda mps).1
        (selectDevice cuda mps).2
        = Except.error (PyExc.withContext
            ("Failed to load DDUF file: ".data ++ e.msg) e) := by
      unfold load_model_from_dduf
      dsimp only
      rw [he]
    rw [load_model_fresh_dduf ext fs cuda mps st path hd, hld]
    exact ⟨rfl, rfl⟩
  · intro pipe e he ht
    have hld : load_model_from_dduf ext path (selectDevice cuda mps).1
        (selectDevice cuda mps).2
        = Except.error (PyExc.withContext
            ("Failed to load DDUF file: ".data ++ e.msg) e) := by
      unfold load_model_from_dduf
      dsimp only
      rw [he]
      dsimp only
      rw [ht]
    rw [load_model_fresh_dduf ext fs cuda mps st path hd, hld]
    exact ⟨rfl, rfl⟩

/-- Witness for C3: loading `d/m.dduf` with a failing packaged-archive
constructor tries only the DDUF call, with directory `d` and file name
`m.dduf`, and fails with the wrapping error whose context is the
original exception. -/
theorem c3_witness :
    (load_model_fresh
      (⟨fun _ _ => Except.ok 0, fun _ _ => Except.ok 0, fun _ _ => Except.ok 0,
        fun _ _ _ => Except.error (PyExc.base "bad".data),
        fun e _ => Except.ok e, id⟩ : Strategies Nat)
      ⟨fun _ => true, fun _ => false⟩ false false
      ⟨none, none, none⟩ "d/m.dduf".data).2.2
      = [LoadEvent.triedDduf "d".data "m.dduf".data]
    ∧ (load_model_fresh
      (⟨fun _ _ => Except.ok 0, fun _ _ => Except.ok 0, fun _ _ => Except.ok 0,
        fun _ _ _ => Except.error (PyExc.base "bad".data),
        fun e _ => Except.ok e, id⟩ : Strategies Nat)
      ⟨fun _ => true, fun _ => false⟩ false false
      ⟨none, none, none⟩ "d/m.dduf".data).1
      = Except.error (PyExc.withContext "Failed to load DDUF file: bad".data
          (PyExc.base "bad".data)) := by
  have h := c3_dduf_no_fallback
    (⟨fun _ _ => Except.ok 0, fun _ _ => Except.ok 0, fun _ _ => Except.ok 0,
      fun _ _ _ => Except.error (PyExc.base "bad".data),
      fun e _ => Except.ok e, id⟩ : Strategies Nat)
    ⟨fun _ => true, fun _ => false⟩ false false
    ⟨none, none, none⟩ "d/m.dduf".data (by decide)
  constructor
  · rw [h.1]
    decide
  · rw [(h.2.1 (PyExc.base "bad".data) (by decide)).1]
    decide

/-- C10 (amended): a load that fails on the DDUF branch, or before any
construction strategy succeeded (chain exhaustion), leaves the
process-wide engine state — resident engine and recorded model path —
exactly as before the call; in particular, after such a failed startup
load (no engine resident beforehand) no engine is resident, and every
`generate_images` call then fails with `EngineNotReadyError`.  (The
unqualified original claim is false: a failure of the device move after
a successful construction leaves the freshly constructed engine
resident with a stale `current_model` — see the counterexample.) -/
theorem c10_failed_load_state {Engine Img Bytes : Type} (ext : Strategies Engine)
    (fs : FS) (cuda mps : Bool) (st : ServerState Engine) (path : List Char)
    (savePng : Img → Except PyExc Bytes) (prompt : List Char) (n : Nat)
    (width height : Int) (np : Option (List Char)) (steps : Int) (g : Rat)
    (seed : Option Int) :
    (is_dduf_file fs path = true →
      (load_model_fresh ext fs cuda mps st path).1.isOk = false →
      (load_model_fresh ext fs cuda mps st path).2.1 = st)
    ∧ (is_dduf_file fs path = false →
      (tryStrategies ext (selectDevice cuda mps).2 path).1.isOk = false →
      (load_model_fresh ext fs cuda mps st path).2.1 = st)
    ∧ (st.pipeline = none →
      (is_dduf_file fs path = true ∨
        (tryStrategies ext (selectDevice cuda mps).2 path).1.isOk = false) →
      (load_model ext fs cuda mps st path).1.isOk = false →
      (load_model ext fs cuda mps st path).2.1.pipeline = none
      ∧ generate_images (none : Option (CallArgs → Except PyExc Img)) savePng
          cuda mps prompt n width height np steps g seed
        = Except.error (PyExc.base "No model loaded".data)) := by
  refine ⟨load_fresh_dduf_fail_state_eq ext fs cuda mps st path,
    load_fresh_chain_fail_state_eq ext fs cuda mps st path, ?_⟩
  intro hnone hdisj hfail
  have hload : load_model ext fs cuda mps st path
      = load_model_fresh ext fs cuda mps st path := by
    unfold load_model
    rw [hnone]
  rw [hload] at hfail ⊢
  refine ⟨?_, rfl⟩
  rcases hdisj with hd | hchain
  · rw [load_fresh_dduf_fail_state_eq ext fs cuda mps st path hd hfail]
    exact hnone
  · by_cases hdb : is_dduf_file fs path = true
    · rw [load_fresh_dduf_fail_state_eq ext fs cuda mps st path hdb hfail]
      exact hnone
    · have hd' : is_dduf_file fs path = false := by
        cases hb : is_dduf_file fs path
        · rfl
        · exact absurd hb hdb
      rw [load_fresh_chain_fail_state_eq ext fs cuda mps st path hd' hchain]
      exact hnone

/-- Witness for C10: after a startup load that exhausts all three
strategies, no engine is resident and generation fails with the
not-ready error. -/
theorem c10_witness :
    ((load_model
        (⟨fun _ _ => Except.error (PyExc.base "a".data),
          fun _ _ => Except.error (PyExc.base "b".data),
          fun _ _ => Except.error (PyExc.base "c".data),
          fun _ _ _ => Except.ok 9, fun e _ => Except.ok e, id⟩ : Strategies Nat)
        ⟨fun _ => false, fun _ => false⟩ false false
        ⟨none, none, none⟩ "m".data).2.1.pipeline = none)
    ∧ generate_images (none : Option (CallArgs → Except PyExc Nat)) Except.ok
        false false "p".data 2 512 512 none 50 0 none
      = Except.error (PyExc.base "No model loaded".data) := by
  exact (c10_failed_load_state
    (⟨fun _ _ => Except.error (PyExc.base "a".data),
      fun _ _ => Except.error (PyExc.base "b".data),
      fun _ _ => Except.error (PyExc.base "c".data),
      fun _ _ _ => Except.ok 9, fun e _ => Except.ok e, id⟩ : Strategies Nat)
    ⟨fun _ => false, fun _ => false⟩ false false
    ⟨none, none, none⟩ "m".data Except.ok "p".data 2 512 512 none 50 0
    none).2.2 rfl (Or.inr (by decide)) (by decide)

/-- Counterexample to C10 as stated: a load in which the first
constructor succeeds and the device move then raises leaves the
process-wide state changed — the freshly constructed engine is
resident (line 149 assigned the global before line 171 raised) even
though `load_model` failed. -/
theorem c10_counterexample :
    ((load_model
        (⟨fun _ _ => Except.ok 11, fun _ _ => Except.ok 12,
          fun _ _ => Except.ok 13, fun _ _ _ => Except.ok 14,
          fun _ _ => Except.error (PyExc.base "mps oom".data), id⟩ :
            Strategies Nat)
        ⟨fun _ => false, fun _ => false⟩ false false
        ⟨none, none, none⟩ "n".data).1.isOk = false)
    ∧ (load_model
        (⟨fun _ _ => Except.ok 11, fun _ _ => Except.ok 12,
          fun _ _ => Except.ok 13, fun _ _ _ => Except.ok 14,
          fun _ _ => Except.error (PyExc.base "mps oom".data), id⟩ :
            Strategies Nat)
        ⟨fun _ => false, fun _ => false⟩ false false
        ⟨none, none, none⟩ "n".data).2.1.pipeline = some 11 := by
  exact ⟨by decide, by decide⟩

end DiffusersServer
